import Mathlib

/-!
Verification development for a browser-based todo-list manager
(React todo app with a remote API).

The orchestration core lives in the `App` component: it owns the todo
collection, a transient temp-todo placeholder, a transient error-message
slot, the filter policy, and the mutation flows (add, update, delete,
toggle-all, clear-completed).  Each flow composes a remote-service call
with local state updates.

Shallow embedding conventions:
* `Todo` and `AppState` mirror the TypeScript data model (`Todo` type and
  the `useState` slots of `App`).
* Remote-service calls are modelled by outcome parameters of type
  `Except Unit Todo` / `Except Unit Unit`: the service either returns the
  canonical record or fails.  A flow that receives such a parameter
  issues that request in the source.
* A JS promise chain becomes a pure function returning the final state
  together with the settled outcome (`Except Unit Unit`: `.ok` for a
  resolved promise, `.error` for a rejected one).
* Bulk flows (`Promise.allSettled` over independent requests) are
  serialised into a left fold, which is a faithful linearisation of the
  single-threaded event-loop semantics: each settlement handler runs a
  functional state update on the then-current state.
-/

/-- The `Todo` record (src/types/Todo): server-assigned id, owning user id,
title, completed flag, and the local-only `loading` flag. -/
structure Todo where
  id : Int
  userId : Int
  title : String
  completed : Bool
  loading : Bool
deriving Repr, DecidableEq

/-- The filter mode enumeration (src/types/TodoFiltersOptions). -/
inductive TodoFilterOptions where
  | All
  | Active
  | Completed
deriving Repr, DecidableEq

/-- The state owned by `App`: the todo collection, the temp-todo
placeholder shown during creation, and the transient error message
(empty string = no error). -/
structure AppState where
  todos : List Todo
  tempTodo : Option Todo
  error : String
deriving Repr, DecidableEq

/-- `filterTodos` (App, lines 49-63): pure filter policy mapping the
collection and a mode to the visible subset. -/
def filterTodos (todosForFilter : List Todo)
    (statusFilterValue : TodoFilterOptions) : List Todo :=
  todosForFilter.filter fun todo =>
    match statusFilterValue with
    | TodoFilterOptions.Active => !todo.completed
    | TodoFilterOptions.Completed => todo.completed
    | TodoFilterOptions.All => true

/-- `uncompletedTodos` (App, lines 70-74): the active (uncompleted)
subset of the full collection. -/
def uncompletedTodos (todos : List Todo) : List Todo :=
  todos.filter fun todo => !todo.completed

/-- `completedTodos` (App, lines 76-78): the completed subset of the
full collection. -/
def completedTodos (todos : List Todo) : List Todo :=
  todos.filter fun todo => todo.completed

/-- The pair of counts `App` hands to the `Footer` (lines 241-242):
`uncompletedTodosCount` and `completedTodosCount`.  Both are computed
from the full collection `todos`; the `todoFilterValue` argument mirrors
the filter state that is in scope at the render site and is not consulted. -/
def footerCounts (todos : List Todo) (todoFilterValue : TodoFilterOptions) :
    Nat × Nat :=
  ((uncompletedTodos todos).length, (completedTodos todos).length)

/-- Characterwise whitespace trim: drop leading whitespace, then drop
trailing whitespace (via reverse). -/
def trimChars (cs : List Char) : List Char :=
  ((cs.dropWhile Char.isWhitespace).reverse.dropWhile Char.isWhitespace).reverse

/-- JavaScript `String.prototype.trim`, used by `addTodo` (App, line 83):
removes whitespace from both ends of the string.  (Lean's built-in
`String.trim` has the same meaning but its auxiliaries do not reduce in
the kernel, so the trim is embedded explicitly.) -/
def jsTrim (s : String) : String :=
  String.mk (trimChars s.data)

/-- Result of the `addTodo` flow (App, lines 82-110): the final state,
whether a create request was issued to the remote service, and the
settled outcome of the returned promise (`.ok` = resolved,
`.error` = rejected). -/
structure AddResult where
  state : AppState
  requestIssued : Bool
  outcome : Except Unit Unit
deriving Repr

/-- `addTodo` (App, lines 82-110).  `userId` stands for the imported
`USER_ID` constant; `post` is the outcome of the `postTodo` request for
the constructed record (only inspected when the request is issued).
Control flow of the source: trim; empty title sets the error and returns
resolved with no request; otherwise publish the temp todo, await
`postTodo`; on success append the response and clear the error, on
failure set the add error and rethrow; the `finally` clears the temp
todo on both paths. -/
def addTodo (s : AppState) (title : String) (userId : Int)
    (post : Except Unit Todo) : AddResult :=
  let newTodoTitle := jsTrim title
  if newTodoTitle = "" then
    { state := { s with error := "Title should not be empty" }
      requestIssued := false
      outcome := Except.ok () }
  else
    let newTodo : Todo :=
      { id := 0, userId := userId, title := newTodoTitle
        completed := false, loading := false }
    let s1 : AppState := { s with tempTodo := some newTodo }
    match post with
    | Except.ok response =>
        { state := { s1 with
            todos := s1.todos ++ [response]
            error := ""
            tempTodo := none }
          requestIssued := true
          outcome := Except.ok () }
    | Except.error e =>
        { state := { s1 with
            error := "Unable to add a todo"
            tempTodo := none }
          requestIssued := true
          outcome := Except.error e }

/-- `updateTodo` (App, lines 114-128).  `patchResult` is the settled
outcome of `patchTodo todoId data`.  On success the collection maps the
todo whose id matches the response's id to the server-returned canonical
record; on failure the update error is set and the rejection is passed
through (`return Promise.reject(err)`).  `todoId` only feeds the remote
request in the source, so here it is absorbed by `patchResult`. -/
def updateTodo (s : AppState) (patchResult : Except Unit Todo) :
    AppState × Except Unit Unit :=
  match patchResult with
  | Except.ok response =>
      ({ s with todos := s.todos.map fun todo =>
          if todo.id = response.id then response else todo },
       Except.ok ())
  | Except.error e =>
      ({ s with error := "Unable to update a todo" }, Except.error e)

/-- `removeTodo` (App, lines 181-192).  `deleteResult` is the settled
outcome of `deleteTodo todoId`.  On success the todo with that id is
filtered out of the collection and the error is cleared; on failure the
delete error is set and the rejection is passed through. -/
def removeTodo (s : AppState) (todoId : Int)
    (deleteResult : Except Unit Unit) : AppState × Except Unit Unit :=
  match deleteResult with
  | Except.ok _ =>
      ({ s with
          todos := (s.todos.filter fun todo => todo.id != todoId),
          error := "" },
       Except.ok ())
  | Except.error e =>
      ({ s with error := "Unable to delete a todo" }, Except.error e)

/-- The optimistic marking step of `toggleAllTodos` (App, lines 139-141):
every todo whose completed value differs from the target gets
`loading := true`; the rest are kept as-is. -/
def markLoadingTodos (toggleValue : Bool) (todos : List Todo) : List Todo :=
  todos.map fun todo =>
    if todo.completed != toggleValue then { todo with loading := true } else todo

/-- The reconciliation step of `toggleAllTodos` (App, lines 163-170):
every todo's completed becomes the target where it differed (hence the
target everywhere) and loading is cleared on all todos. -/
def reconcileTodos (toggleValue : Bool) (todos : List Todo) : List Todo :=
  todos.map fun todo =>
    { todo with
      completed :=
        if todo.completed != toggleValue then toggleValue else todo.completed
      loading := false }

/-- The `Promise.allSettled` fan-out of `toggleAllTodos` (App, lines
149-153): one `updateTodo` per differing todo id.  Serialised settlement:
each handler's functional state update is applied in turn; returns the
resulting state and the number of rejected promises. -/
def runToggleUpdates (s : AppState) (ids : List Int)
    (patchOutcome : Int → Except Unit Todo) : AppState × Nat :=
  match ids with
  | [] => (s, 0)
  | id :: rest =>
      let r := updateTodo s (patchOutcome id)
      let settledRest := runToggleUpdates r.1 rest patchOutcome
      (settledRest.1, settledRest.2 + (match r.2 with | Except.ok _ => 0 | Except.error _ => 1))

/-- `toggleAllTodos` (App, lines 132-177).  No-op on an empty collection.
The target `toggleValue` is true iff any todo is uncompleted.  Mark the
differing todos loading, fan out one update per differing todo, count
rejections, set the partial-failure error when any rejected, then
reconcile: completed := target where it differed, loading cleared
everywhere.  The source's `catch` branch (lines 171-176) guards
flow-level exceptions which cannot arise in this embedding
(`Promise.allSettled` never rejects and the handlers are total), so it
is unreachable and omitted. -/
def toggleAllTodos (s : AppState) (patchOutcome : Int → Except Unit Todo) :
    AppState :=
  if s.todos.length = 0 then s
  else
    let toggleValue := !(uncompletedTodos s.todos).isEmpty
    let updatedTodos := markLoadingTodos toggleValue s.todos
    let s1 : AppState := { s with todos := updatedTodos }
    let todosToToggle :=
      s.todos.filter fun todo => todo.completed != toggleValue
    let settled := runToggleUpdates s1 (todosToToggle.map Todo.id) patchOutcome
    let s2 :=
      if settled.2 ≠ 0 then
        { settled.1 with error := "Some todos could not be updated" }
      else settled.1
    { s2 with todos := reconcileTodos toggleValue s2.todos }

/-- The `Promise.allSettled` fan-out of `removeCompletedTodos` (App,
lines 201-203): one `removeTodo` per completed todo id, serialised;
returns the resulting state and the number of rejected promises. -/
def runRemovals (s : AppState) (ids : List Int)
    (deleteOutcome : Int → Except Unit Unit) : AppState × Nat :=
  match ids with
  | [] => (s, 0)
  | id :: rest =>
      let r := removeTodo s id (deleteOutcome id)
      let settledRest := runRemovals r.1 rest deleteOutcome
      (settledRest.1, settledRest.2 + (match r.2 with | Except.ok _ => 0 | Except.error _ => 1))

/-- `removeCompletedTodos` (App, lines 196-212).  No-op (zero delete
requests) when there are no completed todos; otherwise one delete per
completed todo, and the partial-failure error is set when any rejected.
The second component is the number of delete requests issued. -/
def removeCompletedTodos (s : AppState)
    (deleteOutcome : Int → Except Unit Unit) : AppState × Nat :=
  let completed := completedTodos s.todos
  if completed.isEmpty then (s, 0)
  else
    let settled := runRemovals s (completed.map Todo.id) deleteOutcome
    (if settled.2 ≠ 0 then
        { settled.1 with error := "Some todos could not be deleted" }
      else settled.1,
     completed.length)

/-- Result of a `TodoItem` interaction flow: the final app state, the
item's local loading flag after the flow settles, and the settled
outcome of the inner promise chain. -/
structure ItemFlowResult where
  state : AppState
  loading : Bool
  outcome : Except Unit Unit
deriving Repr

/-- `handleTodoStatusChange` (TodoItem, lines 95-101): the caller sets
the item's local loading flag true, invokes `onUpdate` (the `updateTodo`
flow; `patchResult` is the settled outcome of its `patchTodo` request),
and clears the loading flag in a `finally` block regardless of outcome. -/
def handleTodoStatusChange (s : AppState) (patchResult : Except Unit Todo) :
    ItemFlowResult :=
  let r := updateTodo s patchResult
  { state := r.1, loading := false, outcome := r.2 }

/-- State of the error slot together with its auto-dismiss timer: the
current error text and the deadline (in ms) of the pending clear, if one
is armed.  At most one timer exists at a time because the effect's
cleanup cancels the previous one before a new one is armed. -/
structure ErrorTimerState where
  error : String
  timer : Option Nat
deriving Repr, DecidableEq

/-- Events driving the error slot: `set msg now` is a `setError msg`
call at time `now` (any flow reporting or clearing an error); `fire now`
is the scheduled timeout callback running at time `now`. -/
inductive ErrEvent where
  | set (msg : String) (now : Nat)
  | fire (now : Nat)
deriving Repr, DecidableEq

/-- The error auto-dismiss effect (App, lines 37-45) combined with
React's effect semantics.  The effect's dependency list is `[error]`, so
its cleanup (`clearTimeout`, discarding the old deadline) and re-run
happen only when the error *value changes* between renders; a
`setError msg` with `msg` equal to the current value changes nothing
(React bails out of the same-value update, and the unchanged dependency
would keep the effect from re-running in any case), so the pending
timer survives.  On a value change the new effect body runs: a non-empty
error arms a 3000 ms timer, an empty one arms none.  A `fire` event
clears the error only if the currently armed timer has reached its
deadline (a cancelled timer is no longer in the state and can never
fire); the resulting `setError('')` is a value change that re-runs the
effect, which arms no new timer. -/
def errStep (s : ErrorTimerState) : ErrEvent → ErrorTimerState
  | ErrEvent.set msg now =>
      if msg = s.error then s
      else
        { error := msg
          timer := if msg = "" then none else some (now + 3000) }
  | ErrEvent.fire now =>
      match s.timer with
      | some d => if d ≤ now then { error := "", timer := none } else s
      | none => s

/-- A sample active todo used to instantiate theorems with hypotheses. -/
def sampleTodo1 : Todo :=
  { id := 1, userId := 7, title := "a", completed := false, loading := false }

/-- A sample completed todo used to instantiate theorems with hypotheses. -/
def sampleTodo2 : Todo :=
  { id := 2, userId := 7, title := "b", completed := true, loading := false }

/-- A sample app state with one active and one completed todo. -/
def sampleState : AppState :=
  { todos := [sampleTodo1, sampleTodo2], tempTodo := none, error := "" }

/-- The target value of the toggle-all flow (`!!uncompletedTodos.length`)
equals "some todo is uncompleted". -/
theorem uncompleted_isEmpty_eq_any (l : List Todo) :
    (!(uncompletedTodos l).isEmpty) = l.any fun t => !t.completed := by
  induction l with
  | nil => rfl
  | cons t ts ih =>
    simp only [uncompletedTodos] at *
    cases h : t.completed <;> simp [List.filter_cons, h, ih]

/-- Every todo produced by the reconciliation step carries the target
completed value and a cleared loading flag. -/
theorem reconcileTodos_mem (tv : Bool) (l : List Todo) (t : Todo)
    (ht : t ∈ reconcileTodos tv l) : t.completed = tv ∧ t.loading = false := by
  simp only [reconcileTodos, List.mem_map] at ht
  obtain ⟨x, -, rfl⟩ := ht
  refine ⟨?_, rfl⟩
  cases hx : x.completed <;> cases htv : tv <;> simp [hx, htv]

/-- C1: for every non-empty collection, the toggle-all flow's target
completed value is true iff some todo is currently uncompleted, and after
the flow settles every todo in the collection has completed equal to that
target and loading false, whatever the outcomes of the per-todo update
requests were. -/
theorem toggleAllTodos_settles (s : AppState)
    (patchOutcome : Int → Except Unit Todo) (h : s.todos ≠ []) :
    ((s.todos.any fun t => !t.completed) = true ↔
      ∃ t ∈ s.todos, t.completed = false) ∧
    ∀ t ∈ (toggleAllTodos s patchOutcome).todos,
      t.completed = (s.todos.any fun t => !t.completed) ∧ t.loading = false := by
  constructor
  · simp [List.any_eq_true]
  · intro t ht
    have hlen : ¬ s.todos.length = 0 := fun hh => h (List.length_eq_zero.mp hh)
    rw [← uncompleted_isEmpty_eq_any]
    unfold toggleAllTodos at ht
    rw [if_neg hlen] at ht
    exact reconcileTodos_mem _ _ _ ht

theorem toggleAllTodos_settles_witness :
    ((toggleAllTodos sampleState fun _ => Except.error ()).todos.all
      fun t => t.completed && !t.loading) = true := by
  have h := (toggleAllTodos_settles sampleState (fun _ => Except.error ())
    (by decide)).2
  rw [List.all_eq_true]
  intro t ht
  have h2 := h t ht
  rw [h2.1, h2.2]
  decide

/-- C2: for every input title whose trimmed form is empty, the add flow
only sets the error to "Title should not be empty": no request is issued
and the rest of the state (in particular the todo collection) is
unchanged. -/
theorem addTodo_empty_title (s : AppState) (title : String) (userId : Int)
    (post : Except Unit Todo) (h : jsTrim title = "") :
    addTodo s title userId post =
      { state := { s with error := "Title should not be empty" },
        requestIssued := false,
        outcome := Except.ok () } := by
  simp [addTodo, h]

theorem addTodo_empty_title_witness :
    addTodo sampleState "   " 7 (Except.error ()) =
      { state := { sampleState with error := "Title should not be empty" },
        requestIssued := false,
        outcome := Except.ok () } :=
  addTodo_empty_title sampleState "   " 7 (Except.error ()) (by decide)

/-- C3: when the create request of an add flow fails, the collection is
unchanged, the error is "Unable to add a todo", the failure is
re-signalled to the caller, and the temp-todo placeholder is cleared;
the placeholder is also cleared when the create request succeeds. -/
theorem addTodo_create_failure (s : AppState) (title : String) (userId : Int)
    (h : jsTrim title ≠ "") :
    (∀ e, (addTodo s title userId (Except.error e)).state.todos = s.todos ∧
       (addTodo s title userId (Except.error e)).state.error = "Unable to add a todo" ∧
       (addTodo s title userId (Except.error e)).outcome = Except.error e ∧
       (addTodo s title userId (Except.error e)).state.tempTodo = none) ∧
    ∀ r, (addTodo s title userId (Except.ok r)).state.tempTodo = none := by
  refine ⟨fun e => ?_, fun r => ?_⟩ <;> simp [addTodo, h]

theorem addTodo_create_failure_witness :
    (addTodo sampleState " c " 7 (Except.error ())).state.todos = sampleState.todos ∧
    (addTodo sampleState " c " 7 (Except.error ())).state.error = "Unable to add a todo" ∧
    (addTodo sampleState " c " 7 (Except.error ())).outcome = Except.error () ∧
    (addTodo sampleState " c " 7 (Except.error ())).state.tempTodo = none ∧
    (addTodo sampleState " c " 7 (Except.ok sampleTodo1)).state.tempTodo = none :=
  have h := addTodo_create_failure sampleState " c " 7 (by decide)
  ⟨(h.1 ()).1, (h.1 ()).2.1, (h.1 ()).2.2.1, (h.1 ()).2.2.2, h.2 sampleTodo1⟩

/-- C9: the promise returned by the add flow resolves on an empty
trimmed title (the validation abort is indistinguishable from success
through the returned promise), and it rejects exactly when a create
request was issued and failed. -/
theorem addTodo_resolution (s : AppState) (title : String) (userId : Int)
    (post : Except Unit Todo) :
    (jsTrim title = "" → (addTodo s title userId post).outcome = Except.ok ()) ∧
    ((addTodo s title userId post).outcome = Except.error () ↔
      jsTrim title ≠ "" ∧ post = Except.error ()) := by
  by_cases h : jsTrim title = "" <;> cases post <;> simp [addTodo, h]

theorem addTodo_resolution_witness :
    (addTodo sampleState "   " 7 (Except.ok sampleTodo1)).outcome = Except.ok () :=
  (addTodo_resolution sampleState "   " 7 (Except.ok sampleTodo1)).1 (by decide)

/-- C4: a failed single-item update leaves the collection unchanged, sets
the error to "Unable to update a todo", propagates the rejection to the
caller, and the calling UI's per-item loading flag is cleared after the
flow settles. -/
theorem updateTodo_failure_settles (s : AppState) :
    (updateTodo s (Except.error ())).1.todos = s.todos ∧
    (updateTodo s (Except.error ())).1.error = "Unable to update a todo" ∧
    (updateTodo s (Except.error ())).2 = Except.error () ∧
    (handleTodoStatusChange s (Except.error ())).state.todos = s.todos ∧
    (handleTodoStatusChange s (Except.error ())).state.error = "Unable to update a todo" ∧
    (handleTodoStatusChange s (Except.error ())).outcome = Except.error () ∧
    (handleTodoStatusChange s (Except.error ())).loading = false := by
  simp [handleTodoStatusChange, updateTodo]

/-- C8: a successful single-item update leaves the error slot exactly as
it was, whereas successful delete and add flows reset it to the empty
string. -/
theorem updateTodo_success_error_frame (s : AppState) (response : Todo)
    (todoId : Int) (title : String) (userId : Int) (h : jsTrim title ≠ "") :
    (updateTodo s (Except.ok response)).1.error = s.error ∧
    (removeTodo s todoId (Except.ok ())).1.error = "" ∧
    (addTodo s title userId (Except.ok response)).state.error = "" := by
  refine ⟨rfl, rfl, ?_⟩
  simp [addTodo, h]

theorem updateTodo_success_error_frame_witness :
    (updateTodo sampleState (Except.ok sampleTodo1)).1.error = sampleState.error ∧
    (removeTodo sampleState 1 (Except.ok ())).1.error = "" ∧
    (addTodo sampleState " c " 7 (Except.ok sampleTodo1)).state.error = "" :=
  updateTodo_success_error_frame sampleState sampleTodo1 1 " c " 7 (by decide)

/-- C6: the derived active and completed counts always partition the
collection: their sum is the collection size, and both are computed from
the full collection, independent of the selected filter mode. -/
theorem footerCounts_partition (todos : List Todo) (m1 m2 : TodoFilterOptions) :
    (footerCounts todos m1).1 + (footerCounts todos m1).2 = todos.length ∧
    footerCounts todos m1 = footerCounts todos m2 := by
  refine ⟨?_, rfl⟩
  induction todos with
  | nil => rfl
  | cons t ts ih =>
    simp only [footerCounts, uncompletedTodos, completedTodos] at *
    cases h : t.completed <;> simp [List.filter_cons, h] <;> omega

/-- C7: when the error *becomes* a non-empty message (a value change), a
3000 ms clear timer is armed, and it clears the error when its deadline
fires.  Re-reporting the identical message leaves the state — and hence
the pending deadline — untouched.  A *newer* (different, non-empty)
error replaces the message, cancels the previous timer and restarts the
3000 ms delay: the stale deadline then leaves the state unchanged (it
never clears the newer message) while the new deadline clears it. -/
theorem error_auto_dismiss (s : ErrorTimerState) (msg1 msg2 : String)
    (t1 t2 t3 : Nat) (hmsg1 : msg1 ≠ "") (hmsg2 : msg2 ≠ "")
    (hchange : msg1 ≠ s.error) (hnew : msg2 ≠ msg1) (ht : t1 < t2) :
    (errStep s (ErrEvent.set msg1 t1)).timer = some (t1 + 3000) ∧
    (errStep (errStep s (ErrEvent.set msg1 t1)) (ErrEvent.fire (t1 + 3000))).error = "" ∧
    errStep (errStep s (ErrEvent.set msg1 t1)) (ErrEvent.set msg1 t3) =
      errStep s (ErrEvent.set msg1 t1) ∧
    (errStep (errStep s (ErrEvent.set msg1 t1)) (ErrEvent.set msg2 t2)).error = msg2 ∧
    (errStep (errStep s (ErrEvent.set msg1 t1)) (ErrEvent.set msg2 t2)).timer = some (t2 + 3000) ∧
    errStep (errStep (errStep s (ErrEvent.set msg1 t1)) (ErrEvent.set msg2 t2)) (ErrEvent.fire (t1 + 3000)) =
      errStep (errStep s (ErrEvent.set msg1 t1)) (ErrEvent.set msg2 t2) ∧
    (errStep (errStep (errStep s (ErrEvent.set msg1 t1)) (ErrEvent.set msg2 t2)) (ErrEvent.fire (t2 + 3000))).error = "" := by
  refine ⟨by simp [errStep, hmsg1, hchange], by simp [errStep, hmsg1, hchange],
    by simp [errStep, hmsg1, hchange], by simp [errStep, hmsg1, hmsg2, hchange, hnew],
    by simp [errStep, hmsg1, hmsg2, hchange, hnew], ?_,
    by simp [errStep, hmsg1, hmsg2, hchange, hnew]⟩
  have hlt : ¬ (t2 + 3000 ≤ t1 + 3000) := by omega
  simp [errStep, hmsg1, hmsg2, hchange, hnew, hlt]

theorem error_auto_dismiss_witness :
    (errStep { error := "", timer := none } (ErrEvent.set "Unable to add a todo" 0)).timer = some (0 + 3000) :=
  (error_auto_dismiss { error := "", timer := none } "Unable to add a todo"
    "Unable to update a todo" 0 5 2 (by decide) (by decide) (by decide)
    (by decide) (by decide)).1

/-- C10: both map steps of toggle-all (optimistic loading marking and
final reconciliation) preserve every todo's id, title and userId as well
as the collection's length and order; only completed and loading may
change and no todo is added or removed. -/
theorem toggleAll_frame_preservation (toggleValue : Bool) (todos : List Todo) :
    ((markLoadingTodos toggleValue todos).map fun t => (t.id, t.title, t.userId))
        = (todos.map fun t => (t.id, t.title, t.userId)) ∧
    (markLoadingTodos toggleValue todos).length = todos.length ∧
    ((reconcileTodos toggleValue todos).map fun t => (t.id, t.title, t.userId))
        = (todos.map fun t => (t.id, t.title, t.userId)) ∧
    (reconcileTodos toggleValue todos).length = todos.length := by
  refine ⟨?_, by simp [markLoadingTodos], ?_, by simp [reconcileTodos]⟩
  · simp only [markLoadingTodos, List.map_map]
    refine List.map_congr_left fun a _ => ?_
    by_cases h : (a.completed != toggleValue) = true <;> simp [Function.comp, h]
  · simp only [reconcileTodos, List.map_map]
    exact List.map_congr_left fun a _ => rfl

/-- When every delete outcome in `ids` succeeds, the serialised removal
fan-out filters out exactly the todos whose id occurs in `ids`, and no
promise is rejected. -/
theorem runRemovals_all_ok (ids : List Int) (deleteOutcome : Int → Except Unit Unit)
    (hok : ∀ i ∈ ids, deleteOutcome i = Except.ok ()) :
    ∀ s : AppState,
      (runRemovals s ids deleteOutcome).1.todos
        = (s.todos.filter fun t => !(decide (t.id ∈ ids))) ∧
      (runRemovals s ids deleteOutcome).2 = 0 := by
  induction ids with
  | nil => intro s; simp [runRemovals]
  | cons i rest ih =>
    intro s
    have hi : deleteOutcome i = Except.ok () := hok i (by simp)
    have hrest : ∀ j ∈ rest, deleteOutcome j = Except.ok () :=
      fun j hj => hok j (by simp [hj])
    have hstep := ih hrest
      { s with todos := (s.todos.filter fun t => t.id != i), error := "" }
    simp only [runRemovals, hi, removeTodo] at *
    refine ⟨?_, by simpa using hstep.2⟩
    rw [hstep.1, List.filter_filter]
    apply List.filter_congr
    intro t ht
    simp only [List.mem_cons]
    by_cases he : t.id = i <;> by_cases hd : t.id ∈ rest <;> simp [he, hd, bne]

/-- C5: with a duplicate-free collection (the documented collection
invariant) and all issued deletions succeeding, clear-completed removes
exactly the completed todos, leaving the uncompleted ones in place and
in order; with no completed todos, the flow issues zero delete requests
and changes nothing. -/
theorem removeCompletedTodos_exact (s : AppState)
    (deleteOutcome : Int → Except Unit Unit)
    (hnodup : (s.todos.map Todo.id).Nodup)
    (hok : ∀ t ∈ completedTodos s.todos, deleteOutcome t.id = Except.ok ()) :
    (removeCompletedTodos s deleteOutcome).1.todos
      = (s.todos.filter fun t => !t.completed) ∧
    (completedTodos s.todos = [] → removeCompletedTodos s deleteOutcome = (s, 0)) := by
  by_cases hemp : (completedTodos s.todos).isEmpty = true
  · have hnil : completedTodos s.todos = [] := List.isEmpty_iff.mp hemp
    have hall : ∀ t ∈ s.todos, (!t.completed) = true := by
      intro t ht
      have := List.filter_eq_nil_iff.mp hnil t ht
      simp [completedTodos] at this ⊢
      simp [this]
    constructor
    · simp only [removeCompletedTodos, hemp, if_pos]
      exact (List.filter_eq_self.mpr hall).symm
    · intro _
      simp [removeCompletedTodos, hemp]
  · have hok' : ∀ i ∈ (completedTodos s.todos).map Todo.id,
        deleteOutcome i = Except.ok () := by
      intro i hi
      obtain ⟨t, ht, rfl⟩ := List.mem_map.mp hi
      exact hok t ht
    have hrun := runRemovals_all_ok ((completedTodos s.todos).map Todo.id)
      deleteOutcome hok' s
    constructor
    · simp only [removeCompletedTodos]
      rw [if_neg hemp]
      simp only [hrun.2]
      rw [if_neg (by decide : ¬ ((0 : Nat) ≠ 0))]
      rw [hrun.1]
      apply List.filter_congr
      intro t ht
      have hiff : t.id ∈ (completedTodos s.todos).map Todo.id ↔ t.completed = true := by
        constructor
        · intro hmem
          obtain ⟨c, hc, hcid⟩ := List.mem_map.mp hmem
          have hcs : c ∈ s.todos := (List.mem_filter.mp hc).1
          have hceq : c = t := List.inj_on_of_nodup_map hnodup hcs ht hcid
          have := (List.mem_filter.mp hc).2
          rw [← hceq]; exact this
        · intro hc
          exact List.mem_map.mpr ⟨t, List.mem_filter.mpr ⟨ht, hc⟩, rfl⟩
      by_cases hc : t.completed = true
      · simp [hiff.mpr hc, hc]
      · have : ¬ t.id ∈ (completedTodos s.todos).map Todo.id := fun hm => hc (hiff.mp hm)
        simp [this, hc]
    · intro hnil
      exact absurd (by simp [hnil] : (completedTodos s.todos).isEmpty = true) hemp

theorem removeCompletedTodos_exact_witness :
    (removeCompletedTodos sampleState fun _ => Except.ok ()).1.todos
      = (sampleState.todos.filter fun t => !t.completed) :=
  (removeCompletedTodos_exact sampleState (fun _ => Except.ok ())
    (by decide) (fun t _ => rfl)).1
